import Mathlib

/-!
Verification of the `ust-id-checker` VAT identification service.

The development embeds `api/check-vat.js` (current version, with the
in-memory sliding-window rate limiter and the EL/XI table entries) and the
older handler version (no rate limiter, no EL/XI keys).  Machine integers
are modelled as `Nat` (JS `Date.now()` values are exact in doubles and the
window arithmetic `now - time < 3600000` agrees with truncated `Nat`
subtraction, since a "future" timestamp passes the test in both models).
-/

namespace UstId

/-- JS `\s` character class (ECMAScript WhiteSpace ∪ LineTerminator) on
code points, used by `vatId.replace(/\s/g, '')`. -/
def isJsSpaceNat (n : Nat) : Bool :=
  n == 9 || n == 10 || n == 11 || n == 12 || n == 13 || n == 32 ||
  n == 160 || n == 0x1680 || (Nat.ble 0x2000 n && Nat.ble n 0x200a) ||
  n == 0x2028 || n == 0x2029 || n == 0x202f || n == 0x205f ||
  n == 0x3000 || n == 0xfeff

/-- JS `\s` on characters. -/
def isJsSpace (c : Char) : Bool := isJsSpaceNat c.toNat

/-- `vatId.toString().replace(/\s/g, '').toUpperCase()` — strip all
whitespace, then uppercase (per-character basic-latin uppercasing). -/
def cleanVatId (s : String) : String :=
  ⟨(s.data.filter (fun c => !(isJsSpace c))).map Char.toUpper⟩

/-- `cleanVatId.substring(0, 2)`. -/
def countryCodeOf (s : String) : String := ⟨s.data.take 2⟩

/-- `cleanVatId.substring(2)`. -/
def vatNumberOf (s : String) : String := ⟨s.data.drop 2⟩

/-- Matches a list of characters against a sequence of chunks, each chunk
being `n` characters drawn from a character class; the whole input must be
consumed (the source regexes are `^...$`-anchored). -/
def chunks : List (Nat × (Char → Bool)) → List Char → Bool
  | [], l => l.isEmpty
  | (n, p) :: cs, l =>
      Nat.ble n l.length && (l.take n).all p && chunks cs (l.drop n)

/-- One chunk per literal character of `s`. -/
def lit (s : String) : List (Nat × (Char → Bool)) :=
  s.data.map (fun c => (1, fun x => x == c))

/-- A run of `n` decimal digits (`\d{n}`). -/
def digits (n : Nat) : Nat × (Char → Bool) := (n, Char.isDigit)

/-- `[A-Z]` -/
def upperAZ (c : Char) : Bool := 'A' ≤ c && c ≤ 'Z'

/-- `[A-Z0-9]` -/
def upperAZnum (c : Char) : Bool := upperAZ c || Char.isDigit c

/-- `[A-HJ-NP-Z0-9]` (France: letters except I and O, or digit) -/
def frChar (c : Char) : Bool :=
  (upperAZ c && !(c == 'I') && !(c == 'O')) || Char.isDigit c

/-- `[A-Z*+]` (Ireland, second alternative) -/
def ieChar (c : Char) : Bool := upperAZ c || c == '*' || c == '+'

/-- `[A-W]` (Ireland check letter) -/
def letterAW (c : Char) : Bool := 'A' ≤ c && c ≤ 'W'

/-- `/^ATU\d{8}$/` -/
def patAT : List Char → Bool := chunks (lit "ATU" ++ [digits 8])

/-- `/^BE(0\d{9}|\d{10})$/` -/
def patBE (l : List Char) : Bool :=
  chunks (lit "BE0" ++ [digits 9]) l || chunks (lit "BE" ++ [digits 10]) l

/-- `/^BG\d{9,10}$/` -/
def patBG (l : List Char) : Bool :=
  chunks (lit "BG" ++ [digits 9]) l || chunks (lit "BG" ++ [digits 10]) l

/-- `/^CY\d{8}[A-Z]$/` -/
def patCY : List Char → Bool := chunks (lit "CY" ++ [digits 8, (1, upperAZ)])

/-- `/^CZ\d{8,10}$/` -/
def patCZ (l : List Char) : Bool :=
  chunks (lit "CZ" ++ [digits 8]) l || chunks (lit "CZ" ++ [digits 9]) l ||
  chunks (lit "CZ" ++ [digits 10]) l

/-- `/^DE\d{9}$/` -/
def patDE : List Char → Bool := chunks (lit "DE" ++ [digits 9])

/-- `/^DK\d{8}$/` -/
def patDK : List Char → Bool := chunks (lit "DK" ++ [digits 8])

/-- `/^EE\d{9}$/` -/
def patEE : List Char → Bool := chunks (lit "EE" ++ [digits 9])

/-- `/^EL\d{9}$/` — the table entry stored under the key `'GR'`. -/
def patGR : List Char → Bool := chunks (lit "EL" ++ [digits 9])

/-- `/^EL\d{9}$/` — the table entry stored under the key `'EL'`. -/
def patEL : List Char → Bool := chunks (lit "EL" ++ [digits 9])

/-- `/^ES[A-Z0-9]\d{7}[A-Z0-9]$/` -/
def patES : List Char → Bool :=
  chunks (lit "ES" ++ [(1, upperAZnum), digits 7, (1, upperAZnum)])

/-- `/^FI\d{8}$/` -/
def patFI : List Char → Bool := chunks (lit "FI" ++ [digits 8])

/-- `/^FR[A-HJ-NP-Z0-9]{2}\d{9}$/` -/
def patFR : List Char → Bool := chunks (lit "FR" ++ [(2, frChar), digits 9])

/-- `/^HR\d{11}$/` -/
def patHR : List Char → Bool := chunks (lit "HR" ++ [digits 11])

/-- `/^HU\d{8}$/` -/
def patHU : List Char → Bool := chunks (lit "HU" ++ [digits 8])

/-- `/^IE(\d{7}[A-W]|\d[A-Z*+]\d{5}[A-W])$/` -/
def patIE (l : List Char) : Bool :=
  chunks (lit "IE" ++ [digits 7, (1, letterAW)]) l ||
  chunks (lit "IE" ++ [digits 1, (1, ieChar), digits 5, (1, letterAW)]) l

/-- `/^IT\d{11}$/` -/
def patIT : List Char → Bool := chunks (lit "IT" ++ [digits 11])

/-- `/^LT(\d{9}|\d{12})$/` -/
def patLT (l : List Char) : Bool :=
  chunks (lit "LT" ++ [digits 9]) l || chunks (lit "LT" ++ [digits 12]) l

/-- `/^LU\d{8}$/` -/
def patLU : List Char → Bool := chunks (lit "LU" ++ [digits 8])

/-- `/^LV\d{11}$/` -/
def patLV : List Char → Bool := chunks (lit "LV" ++ [digits 11])

/-- `/^MT\d{8}$/` -/
def patMT : List Char → Bool := chunks (lit "MT" ++ [digits 8])

/-- `/^NL\d{9}B\d{2}$/` -/
def patNL : List Char → Bool :=
  chunks (lit "NL" ++ [digits 9] ++ lit "B" ++ [digits 2])

/-- `/^PL\d{10}$/` -/
def patPL : List Char → Bool := chunks (lit "PL" ++ [digits 10])

/-- `/^PT\d{9}$/` -/
def patPT : List Char → Bool := chunks (lit "PT" ++ [digits 9])

/-- `/^RO\d{2,10}$/` -/
def patRO : List Char → Bool
  | 'R' :: 'O' :: r =>
      r.all Char.isDigit && Nat.ble 2 r.length && Nat.ble r.length 10
  | _ => false

/-- `/^SE\d{12}$/` -/
def patSE : List Char → Bool := chunks (lit "SE" ++ [digits 12])

/-- `/^SI\d{8}$/` -/
def patSI : List Char → Bool := chunks (lit "SI" ++ [digits 8])

/-- `/^SK\d{10}$/` -/
def patSK : List Char → Bool := chunks (lit "SK" ++ [digits 10])

/-- `/^XI\d{9}$/` -/
def patXI : List Char → Bool := chunks (lit "XI" ++ [digits 9])

/-- The `vatFormats` object literal of the current handler
(`src/unnamed/part_000`, lines 71–101), in source order.  JS object
property lookup on a two-character key hits own properties only
(`Object.prototype` has no two-character members), so an association
lookup is a faithful model. -/
def vatFormats (cc : String) : Option (List Char → Bool) :=
  if cc = "AT" then some patAT
  else if cc = "BE" then some patBE
  else if cc = "BG" then some patBG
  else if cc = "CY" then some patCY
  else if cc = "CZ" then some patCZ
  else if cc = "DE" then some patDE
  else if cc = "DK" then some patDK
  else if cc = "EE" then some patEE
  else if cc = "GR" then some patGR
  else if cc = "EL" then some patEL
  else if cc = "ES" then some patES
  else if cc = "FI" then some patFI
  else if cc = "FR" then some patFR
  else if cc = "HR" then some patHR
  else if cc = "HU" then some patHU
  else if cc = "IE" then some patIE
  else if cc = "IT" then some patIT
  else if cc = "LT" then some patLT
  else if cc = "LU" then some patLU
  else if cc = "LV" then some patLV
  else if cc = "MT" then some patMT
  else if cc = "NL" then some patNL
  else if cc = "PL" then some patPL
  else if cc = "PT" then some patPT
  else if cc = "RO" then some patRO
  else if cc = "SE" then some patSE
  else if cc = "SI" then some patSI
  else if cc = "SK" then some patSK
  else if cc = "XI" then some patXI
  else none

/-- The `vatFormats` object literal of the older handler version
(`src/api/check-vat.js`, lines 34–62): identical patterns, but no `'EL'`
key and no `'XI'` key. -/
def vatFormatsOld (cc : String) : Option (List Char → Bool) :=
  if cc = "AT" then some patAT
  else if cc = "BE" then some patBE
  else if cc = "BG" then some patBG
  else if cc = "CY" then some patCY
  else if cc = "CZ" then some patCZ
  else if cc = "DE" then some patDE
  else if cc = "DK" then some patDK
  else if cc = "EE" then some patEE
  else if cc = "GR" then some patGR
  else if cc = "ES" then some patES
  else if cc = "FI" then some patFI
  else if cc = "FR" then some patFR
  else if cc = "HR" then some patHR
  else if cc = "HU" then some patHU
  else if cc = "IE" then some patIE
  else if cc = "IT" then some patIT
  else if cc = "LT" then some patLT
  else if cc = "LU" then some patLU
  else if cc = "LV" then some patLV
  else if cc = "MT" then some patMT
  else if cc = "NL" then some patNL
  else if cc = "PL" then some patPL
  else if cc = "PT" then some patPT
  else if cc = "RO" then some patRO
  else if cc = "SE" then some patSE
  else if cc = "SI" then some patSI
  else if cc = "SK" then some patSK
  else none

/-- Outcome of the format-validation stage (handler lines 107–123): the
`!vatFormats[countryCode]` branch, the failed `.test` branch, or a pass. -/
inductive FormatOutcome where
  | unknownCountry : FormatOutcome
  | mismatch (countryCode : String) : FormatOutcome
  | accepted (countryCode : String) : FormatOutcome
deriving DecidableEq, Repr

/-- The format-validation stage, generic in the rule table: look up the
two-character prefix, then test the full cleaned string. -/
def formatStage (table : String → Option (List Char → Bool))
    (clean : String) : FormatOutcome :=
  match table (countryCodeOf clean) with
  | none => .unknownCountry
  | some pat =>
      if pat clean.data then .accepted (countryCodeOf clean)
      else .mismatch (countryCodeOf clean)

/-- `formatValid` value reported for each format-stage outcome. -/
def FormatOutcome.formatValid : FormatOutcome → Bool
  | .accepted _ => true
  | _ => false

/-! ## Rate limiter state (`const rateLimiter = new Map()`)

A JS `Map` keyed by client identity: keys are unique, `set` of an existing
key keeps its position, `set` of a new key appends.  Modelled as an
association list read through `mapGet` (first match). -/

/-- Rate limiter store: client identity → ordered request timestamps (ms). -/
abbrev RLMap : Type := List (String × List Nat)

/-- `rateLimiter.get(ip)` (and `has` via `isSome`). -/
def mapGet (m : RLMap) (k : String) : Option (List Nat) :=
  match m with
  | [] => none
  | (k', v) :: rest => if k' = k then some v else mapGet rest k

/-- `rateLimiter.set(ip, v)`: replace in place, or append when absent. -/
def mapSet (m : RLMap) (k : String) (v : List Nat) : RLMap :=
  match m with
  | [] => [(k, v)]
  | (k', v') :: rest =>
      if k' = k then (k, v) :: rest else (k', v') :: mapSet rest k v

/-- `now - time < 3600000`: the timestamp is inside the sliding window.
(`Nat` truncated subtraction agrees with JS here: a timestamp in the
future yields a negative JS difference, which also passes the test.) -/
def inWindow (now t : Nat) : Bool := now - t < 3600000

/-- Handler lines 29–41: the admission decision and the resulting store.
On reject the store is returned untouched (no append, no lazy cleanup). -/
def rateLimitStep (m : RLMap) (ip : String) (now : Nat) :
    Bool × RLMap :=
  match mapGet m ip with
  | some times =>
      let requests := times.filter (fun t => inWindow now t)
      if 150 ≤ requests.length then (false, m)
      else (true, mapSet m ip (requests ++ [now]))
  | none => (true, mapSet m ip [now])

/-- Handler lines 44–53: the probabilistic global sweep body (run when
`Math.random() < 0.02`): re-filter every identity, delete the ones whose
filtered sequence is empty. -/
def sweep (m : RLMap) (now : Nat) : RLMap :=
  m.filterMap (fun e =>
    let recent := e.2.filter (fun t => inWindow now t)
    if recent.length = 0 then none else some (e.1, recent))

/-- Iterate `rateLimitStep` for one identity over a list of request
times, collecting the admission decisions. -/
def runLimiter (ip : String) : List Nat → RLMap → List Bool × RLMap
  | [], m => ([], m)
  | t :: ts, m =>
      let step := rateLimitStep m ip t
      let rest := runLimiter ip ts step.2
      (step.1 :: rest.1, rest.2)

/-! ## The request handler -/

/-- JS `a || b` on strings: the empty string is the only falsy string. -/
def jsOr (a b : String) : String := if a = "" then b else a

/-- Incoming request as the handler reads it: method string, the three
transport-layer identity hints, and the `vatId` field of query and body. -/
structure Request where
  method : String
  xForwardedFor : Option String
  xRealIp : Option String
  remoteAddress : Option String
  queryVatId : Option String
  bodyVatId : Option String

/-- Handler lines 22–25: `req.headers['x-forwarded-for']?.split(',')[0] ||
req.headers['x-real-ip'] || req.connection?.remoteAddress || 'unknown'`. -/
def clientIPOf (r : Request) : String :=
  jsOr (match r.xForwardedFor with
        | some s => (s.splitOn ",").headD ""
        | none => "")
    (jsOr (r.xRealIp.getD "") (jsOr (r.remoteAddress.getD "") "unknown"))

/-- Handler lines 56–58: `req.method === 'GET' ? req.query.vatId :
req.body?.vatId`. -/
def vatIdOf (r : Request) : Option String :=
  if r.method = "GET" then r.queryVatId else r.bodyVatId

/-- Parsed VIES response body (`viesData`): the fields the handler reads,
each possibly absent in the JSON. -/
structure ViesData where
  valid : Bool
  name : Option String
  address : Option String
  requestDate : Option String

/-- Outcome of the outbound `fetch` + `response.json()` pair, supplied as
an oracle: a thrown exception (network error / timeout), or a transport
response with its `ok` flag and the parse result (`none` = the body was
not valid JSON, so `response.json()` throws). -/
inductive FetchResult where
  | exn : FetchResult
  | resp (ok : Bool) (body : Option ViesData) : FetchResult

/-- The fetch outcomes that land in the `catch` block. -/
def viesFails : FetchResult → Bool
  | .resp true (some _) => false
  | _ => true

/-- The handler's possible JSON responses, one constructor per `return`
site, carrying the body fields in source order. -/
inductive Resp where
  | optionsOk : Resp
  | methodNotAllowed (error : String) : Resp
  | tooMany (error : String) (formatValid : Bool) (retryAfter : Nat) : Resp
  | missingInput (error usage : String) (formatValid : Bool) : Resp
  | unknownCountry (vatId : String) (valid : Bool) (error : String)
      (formatValid : Bool) : Resp
  | badFormat (vatId : String) (valid : Bool) (error : String)
      (formatValid : Bool) : Resp
  | verified (vatId : String) (valid : Bool)
      (name address countryCode requestDate : String) (formatValid : Bool)
      (source timestamp : String) : Resp
  | indeterminate (vatId error : String) (formatValid : Bool)
      (countryCode timestamp message : String) : Resp
deriving DecidableEq, Repr

/-- HTTP status code attached to each response. -/
def Resp.status : Resp → Nat
  | .optionsOk => 200
  | .methodNotAllowed _ => 405
  | .tooMany _ _ _ => 429
  | .missingInput _ _ _ => 400
  | .unknownCountry _ _ _ _ => 400
  | .badFormat _ _ _ _ => 400
  | .verified _ _ _ _ _ _ _ _ _ => 200
  | .indeterminate _ _ _ _ _ _ => 200

/-- The `valid` field of the JSON body: `none` when the field is absent,
`some none` when it is JSON `null`, `some (some b)` for a boolean. -/
def Resp.validField : Resp → Option (Option Bool)
  | .unknownCountry _ v _ _ => some (some v)
  | .badFormat _ v _ _ => some (some v)
  | .verified _ v _ _ _ _ _ _ _ => some (some v)
  | .indeterminate _ _ _ _ _ _ => some none
  | _ => none

/-- The `formatValid` field of the JSON body, when present. -/
def Resp.formatValidField : Resp → Option Bool
  | .tooMany _ fv _ => some fv
  | .missingInput _ _ fv => some fv
  | .unknownCountry _ _ _ fv => some fv
  | .badFormat _ _ _ fv => some fv
  | .verified _ _ _ _ _ _ fv _ _ => some fv
  | .indeterminate _ _ fv _ _ _ => some fv
  | _ => none

/-- The `retryAfter` field of the JSON body, when present. -/
def Resp.retryAfterField : Resp → Option Nat
  | .tooMany _ _ ra => some ra
  | _ => none

/-- Handler lines 126–174: the `try`/`catch` around the VIES call.
`!response.ok` throws into the `catch`; a `json()` failure also lands in
the `catch`; both produce the Indeterminate 200 body. -/
def viesStage (clean cc : String) (fr : FetchResult) (nowIso : String) :
    Resp :=
  match fr with
  | .resp true (some d) =>
      .verified clean d.valid (d.name.getD "") (d.address.getD "") cc
        (jsOr (d.requestDate.getD "") nowIso) true "EU VIES" nowIso
  | _ =>
      .indeterminate clean "VIES API nicht erreichbar" true cc nowIso
        "Format ist gültig, aber Online-Prüfung fehlgeschlagen"

/-- Handler lines 56–174: everything after the rate-limiter block.  This
part never touches the rate-limiter store, so it is a pure function of
the request and the fetch oracle. -/
def respond (req : Request) (fr : FetchResult) (nowIso : String) : Resp :=
  let v := (vatIdOf req).getD ""
  if v = "" then
    .missingInput "USt-ID ist erforderlich"
      "GET /api/check-vat?vatId=DE123456789" false
  else
    let clean := cleanVatId v
    match vatFormats (countryCodeOf clean) with
    | none =>
        .unknownCountry clean false "Unbekanntes Land oder ungültiges Format"
          false
    | some pat =>
        if pat clean.data then viesStage clean (countryCodeOf clean) fr nowIso
        else
          .badFormat clean false
            ("Format entspricht nicht den Regeln für " ++ countryCodeOf clean)
            false

/-- The full handler (current version, `src/unnamed/part_000`): CORS
preflight, method check, rate limiting, optional sweep, then `respond`.
`sweepNow` is the oracle for `Math.random() < 0.02`; `nowMs` is
`Date.now()`; `nowIso` is `new Date().toISOString()`.  Returns the
response and the rate-limiter store after the request. -/
def handler (req : Request) (fr : FetchResult) (nowMs : Nat)
    (nowIso : String) (sweepNow : Bool) (st : RLMap) : Resp × RLMap :=
  if req.method = "OPTIONS" then (.optionsOk, st)
  else if req.method ≠ "GET" ∧ req.method ≠ "POST" then
    (.methodNotAllowed "Method not allowed", st)
  else
    let ip := clientIPOf req
    let step := rateLimitStep st ip nowMs
    if step.1 = false then
      (.tooMany "Zu viele Anfragen. Bitte versuchen Sie es später erneut."
        false 3600, st)
    else
      let st2 := if sweepNow then sweep step.2 nowMs else step.2
      (respond req fr nowIso, st2)

/-! ## Helper lemmas -/

theorem toNat_ofNat_of_range {m : Nat} (h1 : 65 ≤ m) (h2 : m ≤ 90) :
    (Char.ofNat m).toNat = m := by
  interval_cases m <;> decide

theorem toUpper_toNat_of_lower {c : Char}
    (h : c.toNat ≥ 97 ∧ c.toNat ≤ 122) :
    (Char.toUpper c).toNat = c.toNat - 32 := by
  unfold Char.toUpper
  rw [if_pos h]
  exact toNat_ofNat_of_range (by omega) (by omega)

theorem toUpper_eq_of_not_lower {c : Char}
    (h : ¬(c.toNat ≥ 97 ∧ c.toNat ≤ 122)) : Char.toUpper c = c := by
  unfold Char.toUpper
  rw [if_neg h]

theorem toUpper_idem (c : Char) :
    Char.toUpper (Char.toUpper c) = Char.toUpper c := by
  by_cases h : c.toNat ≥ 97 ∧ c.toNat ≤ 122
  · have h2 : (Char.toUpper c).toNat = c.toNat - 32 := toUpper_toNat_of_lower h
    apply toUpper_eq_of_not_lower
    omega
  · rw [toUpper_eq_of_not_lower h]
    exact toUpper_eq_of_not_lower h

theorem isJsSpaceNat_false_mid {n : Nat} (h1 : 65 ≤ n) (h2 : n ≤ 122) :
    isJsSpaceNat n = false := by
  rw [← Bool.not_eq_true]
  simp only [isJsSpaceNat, Bool.or_eq_true, Bool.and_eq_true, beq_iff_eq,
    Nat.ble_eq]
  omega

theorem isJsSpace_toUpper (c : Char) :
    isJsSpace (Char.toUpper c) = isJsSpace c := by
  by_cases h : c.toNat ≥ 97 ∧ c.toNat ≤ 122
  · have h2 : (Char.toUpper c).toNat = c.toNat - 32 := toUpper_toNat_of_lower h
    unfold isJsSpace
    rw [h2, isJsSpaceNat_false_mid (by omega) (by omega),
      isJsSpaceNat_false_mid (by omega) (by omega)]
  · rw [toUpper_eq_of_not_lower h]

theorem handler_admitted (req : Request) (fr : FetchResult) (nowMs : Nat)
    (nowIso : String) (sw : Bool) (st : RLMap)
    (hm : req.method = "GET" ∨ req.method = "POST")
    (hok : (rateLimitStep st (clientIPOf req) nowMs).1 = true) :
    handler req fr nowMs nowIso sw st =
      (respond req fr nowIso,
        if sw then sweep (rateLimitStep st (clientIPOf req) nowMs).2 nowMs
        else (rateLimitStep st (clientIPOf req) nowMs).2) := by
  rcases hm with h | h <;> simp [handler, h, hok]

theorem handler_rejected (req : Request) (fr : FetchResult) (nowMs : Nat)
    (nowIso : String) (sw : Bool) (st : RLMap)
    (hm : req.method = "GET" ∨ req.method = "POST")
    (hreject : (rateLimitStep st (clientIPOf req) nowMs).1 = false) :
    handler req fr nowMs nowIso sw st =
      (.tooMany "Zu viele Anfragen. Bitte versuchen Sie es später erneut."
        false 3600, st) := by
  rcases hm with h | h <;> simp [handler, h, hreject]

theorem viesStage_of_fail {clean cc : String} {fr : FetchResult}
    {nowIso : String} (hfail : viesFails fr = true) :
    viesStage clean cc fr nowIso =
      .indeterminate clean "VIES API nicht erreichbar" true cc nowIso
        "Format ist gültig, aber Online-Prüfung fehlgeschlagen" := by
  cases fr with
  | exn => rfl
  | resp ok body =>
      cases ok <;> cases body <;> first | rfl | simp [viesFails] at hfail

theorem take_two_shape {l : List Char} {a b : Char}
    (h : l.take 2 = [a, b]) : ∃ t, l = a :: b :: t := by
  cases l with
  | nil => simp at h
  | cons x l1 =>
      cases l1 with
      | nil => simp at h
      | cons y t =>
          simp [List.take] at h
          exact ⟨t, by rw [h.1, h.2]⟩

theorem patGR_gr_prefixed (t : List Char) :
    patGR ('G' :: 'R' :: t) = false := by rfl

theorem lookup_agree (cc : String) (h1 : cc ≠ "EL") (h2 : cc ≠ "XI") :
    vatFormats cc = vatFormatsOld cc := by
  by_cases hAT : cc = "AT"
  · subst hAT; rfl
  by_cases hBE : cc = "BE"
  · subst hBE; rfl
  by_cases hBG : cc = "BG"
  · subst hBG; rfl
  by_cases hCY : cc = "CY"
  · subst hCY; rfl
  by_cases hCZ : cc = "CZ"
  · subst hCZ; rfl
  by_cases hDE : cc = "DE"
  · subst hDE; rfl
  by_cases hDK : cc = "DK"
  · subst hDK; rfl
  by_cases hEE : cc = "EE"
  · subst hEE; rfl
  by_cases hGR : cc = "GR"
  · subst hGR; rfl
  by_cases hES : cc = "ES"
  · subst hES; rfl
  by_cases hFI : cc = "FI"
  · subst hFI; rfl
  by_cases hFR : cc = "FR"
  · subst hFR; rfl
  by_cases hHR : cc = "HR"
  · subst hHR; rfl
  by_cases hHU : cc = "HU"
  · subst hHU; rfl
  by_cases hIE : cc = "IE"
  · subst hIE; rfl
  by_cases hIT : cc = "IT"
  · subst hIT; rfl
  by_cases hLT : cc = "LT"
  · subst hLT; rfl
  by_cases hLU : cc = "LU"
  · subst hLU; rfl
  by_cases hLV : cc = "LV"
  · subst hLV; rfl
  by_cases hMT : cc = "MT"
  · subst hMT; rfl
  by_cases hNL : cc = "NL"
  · subst hNL; rfl
  by_cases hPL : cc = "PL"
  · subst hPL; rfl
  by_cases hPT : cc = "PT"
  · subst hPT; rfl
  by_cases hRO : cc = "RO"
  · subst hRO; rfl
  by_cases hSE : cc = "SE"
  · subst hSE; rfl
  by_cases hSI : cc = "SI"
  · subst hSI; rfl
  by_cases hSK : cc = "SK"
  · subst hSK; rfl
  simp only [vatFormats, vatFormatsOld, if_neg hAT, if_neg hBE, if_neg hBG, if_neg hCY, if_neg hCZ, if_neg hDE, if_neg hDK, if_neg hEE, if_neg hGR, if_neg hES, if_neg hFI, if_neg hFR, if_neg hHR, if_neg hHU, if_neg hIE, if_neg hIT, if_neg hLT, if_neg hLU, if_neg hLV, if_neg hMT, if_neg hNL, if_neg hPL, if_neg hPT, if_neg hRO, if_neg hSE, if_neg hSI, if_neg hSK, if_neg h1, if_neg h2]


theorem mapGet_mapSet_self (m : RLMap) (k : String) (v : List Nat) :
    mapGet (mapSet m k v) k = some v := by
  induction m with
  | nil => simp [mapSet, mapGet]
  | cons e rest ih =>
      obtain ⟨k', v'⟩ := e
      by_cases h : k' = k
      · simp [mapSet, mapGet, h]
      · simp [mapSet, mapGet, h, ih]

theorem mapGet_sweep {m : RLMap} {now : Nat} {k : String} {ts : List Nat}
    (hget : mapGet m k = some ts)
    (hne : ts.filter (fun t => inWindow now t) ≠ []) :
    mapGet (sweep m now) k = some (ts.filter (fun t => inWindow now t)) := by
  induction m with
  | nil => simp [mapGet] at hget
  | cons e rest ih =>
      obtain ⟨k', v'⟩ := e
      by_cases h : k' = k
      · subst h
        rw [mapGet, if_pos rfl] at hget
        injection hget with hv
        subst hv
        rw [sweep, List.filterMap_cons]
        simp only
        rw [if_neg (by simpa [List.length_eq_zero] using hne)]
        rw [mapGet, if_pos rfl]
      · rw [mapGet, if_neg h] at hget
        have htail := ih hget
        rw [sweep, List.filterMap_cons]
        simp only
        by_cases hz : (v'.filter (fun t => inWindow now t)).length = 0
        · rw [if_pos hz]
          exact htail
        · rw [if_neg hz, mapGet, if_neg h]
          exact htail

theorem filter_inWindow_fix {R : List Nat} {now : Nat}
    (hR : ∀ t ∈ R, inWindow now t = true) :
    (R ++ [now]).filter (fun t => inWindow now t) = R ++ [now] := by
  rw [List.filter_eq_self]
  intro a ha
  rcases List.mem_append.mp ha with h | h
  · exact hR a h
  · rw [List.mem_singleton.mp h]
    simp [inWindow]

theorem runLimiter_fill (ip : String) (base : Nat) :
    ∀ (ts cur : List Nat),
      (∀ t ∈ cur, base ≤ t ∧ t < base + 3600000) →
      (∀ t ∈ ts, base ≤ t ∧ t < base + 3600000) →
      cur.length + ts.length ≤ 150 →
      runLimiter ip ts [(ip, cur)] =
        (List.replicate ts.length true, [(ip, cur ++ ts)]) := by
  intro ts
  induction ts with
  | nil =>
      intro cur _ _ _
      simp [runLimiter]
  | cons t rest ih =>
      intro cur hcur hts hlen
      have hfilter : cur.filter (fun u => inWindow t u) = cur := by
        rw [List.filter_eq_self]
        intro a ha
        have h1 := hcur a ha
        have h2 := hts t (List.mem_cons_self t rest)
        simp only [inWindow, decide_eq_true_eq]
        omega
      have hstep : rateLimitStep [(ip, cur)] ip t =
          (true, [(ip, cur ++ [t])]) := by
        rw [rateLimitStep]
        rw [show mapGet [(ip, cur)] ip = some cur by simp [mapGet]]
        simp only [hfilter]
        rw [if_neg (by simp at hlen ⊢; omega)]
        rw [show mapSet [(ip, cur)] ip (cur ++ [t]) = [(ip, cur ++ [t])] by
          simp [mapSet]]
      rw [runLimiter, hstep]
      simp only
      have hrest := ih (cur ++ [t])
        (by
          intro a ha
          rcases List.mem_append.mp ha with h | h
          · exact hcur a h
          · rw [List.mem_singleton.mp h]
            exact hts t (List.mem_cons_self t rest))
        (fun a ha => hts a (List.mem_cons_of_mem t ha))
        (by simp at hlen ⊢; omega)
      rw [hrest]
      simp only [List.length_cons, List.replicate_succ, List.append_assoc,
        List.singleton_append]

/-! ## Claim theorems -/

/-- C3: the format table of the current handler holds Greece under both
its ISO code `GR` and the registry code `EL`, and the two entries are the
identical pattern (`/^EL\d{9}$/`). -/
theorem greece_dual_key :
    vatFormats "GR" = some patGR ∧ vatFormats "EL" = some patEL ∧
    patGR = patEL := by
  exact ⟨rfl, rfl, rfl⟩

/-- C4: the rule table covers all 27 EU jurisdictions plus the
post-Brexit Northern-Ireland code `XI`: each code has a table entry, and
for each jurisdiction a concrete identifier of its documented shape is
accepted by the format-validation stage (Greece under both of its codes,
its identifiers carrying the registry prefix `EL`). -/
theorem table_covers_eu27_plus_XI :
    ((vatFormats "AT").isSome ∧ formatStage vatFormats "ATU12345678" = .accepted "AT") ∧
    ((vatFormats "BE").isSome ∧ formatStage vatFormats "BE0123456789" = .accepted "BE") ∧
    ((vatFormats "BG").isSome ∧ formatStage vatFormats "BG123456789" = .accepted "BG") ∧
    ((vatFormats "CY").isSome ∧ formatStage vatFormats "CY12345678A" = .accepted "CY") ∧
    ((vatFormats "CZ").isSome ∧ formatStage vatFormats "CZ12345678" = .accepted "CZ") ∧
    ((vatFormats "DE").isSome ∧ formatStage vatFormats "DE123456789" = .accepted "DE") ∧
    ((vatFormats "DK").isSome ∧ formatStage vatFormats "DK12345678" = .accepted "DK") ∧
    ((vatFormats "EE").isSome ∧ formatStage vatFormats "EE123456789" = .accepted "EE") ∧
    ((vatFormats "GR").isSome ∧ (vatFormats "EL").isSome ∧
      formatStage vatFormats "EL123456789" = .accepted "EL") ∧
    ((vatFormats "ES").isSome ∧ formatStage vatFormats "ESA1234567B" = .accepted "ES") ∧
    ((vatFormats "FI").isSome ∧ formatStage vatFormats "FI12345678" = .accepted "FI") ∧
    ((vatFormats "FR").isSome ∧ formatStage vatFormats "FR12123456789" = .accepted "FR") ∧
    ((vatFormats "HR").isSome ∧ formatStage vatFormats "HR12345678901" = .accepted "HR") ∧
    ((vatFormats "HU").isSome ∧ formatStage vatFormats "HU12345678" = .accepted "HU") ∧
    ((vatFormats "IE").isSome ∧ formatStage vatFormats "IE1234567A" = .accepted "IE") ∧
    ((vatFormats "IT").isSome ∧ formatStage vatFormats "IT12345678901" = .accepted "IT") ∧
    ((vatFormats "LT").isSome ∧ formatStage vatFormats "LT123456789" = .accepted "LT") ∧
    ((vatFormats "LU").isSome ∧ formatStage vatFormats "LU12345678" = .accepted "LU") ∧
    ((vatFormats "LV").isSome ∧ formatStage vatFormats "LV12345678901" = .accepted "LV") ∧
    ((vatFormats "MT").isSome ∧ formatStage vatFormats "MT12345678" = .accepted "MT") ∧
    ((vatFormats "NL").isSome ∧ formatStage vatFormats "NL123456789B01" = .accepted "NL") ∧
    ((vatFormats "PL").isSome ∧ formatStage vatFormats "PL1234567890" = .accepted "PL") ∧
    ((vatFormats "PT").isSome ∧ formatStage vatFormats "PT123456789" = .accepted "PT") ∧
    ((vatFormats "RO").isSome ∧ formatStage vatFormats "RO12" = .accepted "RO") ∧
    ((vatFormats "SE").isSome ∧ formatStage vatFormats "SE123456789012" = .accepted "SE") ∧
    ((vatFormats "SI").isSome ∧ formatStage vatFormats "SI12345678" = .accepted "SI") ∧
    ((vatFormats "SK").isSome ∧ formatStage vatFormats "SK1234567890" = .accepted "SK") ∧
    ((vatFormats "XI").isSome ∧ formatStage vatFormats "XI123456789" = .accepted "XI") := by
  decide

/-- C6: normalization is idempotent, and the country-code/local-number
split discards no characters: the two parts concatenate back to the
normalized string. -/
theorem normalize_idem_and_split_total (s : String) :
    cleanVatId (cleanVatId s) = cleanVatId s ∧
    countryCodeOf (cleanVatId s) ++ vatNumberOf (cleanVatId s) =
      cleanVatId s := by
  constructor
  · unfold cleanVatId
    congr 1
    rw [List.filter_map]
    have hcomp : ((fun c => !(isJsSpace c)) ∘ Char.toUpper) =
        fun c => !(isJsSpace c) := by
      funext c
      simp [Function.comp, isJsSpace_toUpper]
    rw [hcomp, List.filter_filter]
    simp only [Bool.and_self]
    rw [List.map_map]
    have hup : (Char.toUpper ∘ Char.toUpper) = Char.toUpper := by
      funext c
      simp [Function.comp, toUpper_idem]
    rw [hup]
  · show String.mk ((cleanVatId s).data.take 2 ++ (cleanVatId s).data.drop 2) =
      cleanVatId s
    rw [List.take_append_drop]

/-- C7: an admitted GET/POST request with a missing or empty identifier
terminates with HTTP 400 and a JSON body carrying an error, a usage hint,
and `formatValid: false`. -/
theorem missing_vatId_400 (req : Request) (fr : FetchResult) (nowMs : Nat)
    (nowIso : String) (sw : Bool) (st : RLMap)
    (hm : req.method = "GET" ∨ req.method = "POST")
    (hok : (rateLimitStep st (clientIPOf req) nowMs).1 = true)
    (hv : (vatIdOf req).getD "" = "") :
    (handler req fr nowMs nowIso sw st).1 =
      .missingInput "USt-ID ist erforderlich"
        "GET /api/check-vat?vatId=DE123456789" false ∧
    (handler req fr nowMs nowIso sw st).1.status = 400 ∧
    (handler req fr nowMs nowIso sw st).1.formatValidField = some false := by
  rw [handler_admitted req fr nowMs nowIso sw st hm hok]
  have hr : respond req fr nowIso =
      .missingInput "USt-ID ist erforderlich"
        "GET /api/check-vat?vatId=DE123456789" false := by
    simp [respond, hv]
  exact ⟨hr, by rw [show (respond req fr nowIso, _).1 = _ from rfl, hr]; rfl,
    by rw [show (respond req fr nowIso, _).1 = _ from rfl, hr]; rfl⟩

/-- Witness for C7: a GET request with no `vatId` gets the 400 body. -/
theorem missing_vatId_400_witness :
    (handler ⟨"GET", none, none, none, none, none⟩ .exn 0 "" false []).1 =
      .missingInput "USt-ID ist erforderlich"
        "GET /api/check-vat?vatId=DE123456789" false :=
  (missing_vatId_400 ⟨"GET", none, none, none, none, none⟩ .exn 0 "" false []
    (Or.inl rfl) (by decide) (by decide)).1

/-- C2: once format validation passes, every failing outbound outcome —
thrown exception, non-success transport status, or malformed body — yields
an HTTP 200 response with `valid = null`, `formatValid = true`, the
country code, a timestamp and the distinct "syntax fine, live check
failed" message; no server error reaches the caller. -/
theorem vies_failure_indeterminate_200 (req : Request) (fr : FetchResult)
    (nowMs : Nat) (nowIso : String) (sw : Bool) (st : RLMap)
    (hm : req.method = "GET" ∨ req.method = "POST")
    (hok : (rateLimitStep st (clientIPOf req) nowMs).1 = true)
    (hv : (vatIdOf req).getD "" ≠ "")
    (pat : List Char → Bool)
    (hlook : vatFormats (countryCodeOf (cleanVatId ((vatIdOf req).getD ""))) =
      some pat)
    (hmatch : pat (cleanVatId ((vatIdOf req).getD "")).data = true)
    (hfail : viesFails fr = true) :
    (handler req fr nowMs nowIso sw st).1 =
      .indeterminate (cleanVatId ((vatIdOf req).getD ""))
        "VIES API nicht erreichbar" true
        (countryCodeOf (cleanVatId ((vatIdOf req).getD ""))) nowIso
        "Format ist gültig, aber Online-Prüfung fehlgeschlagen" ∧
    (handler req fr nowMs nowIso sw st).1.status = 200 ∧
    (handler req fr nowMs nowIso sw st).1.validField = some none ∧
    (handler req fr nowMs nowIso sw st).1.formatValidField = some true := by
  rw [handler_admitted req fr nowMs nowIso sw st hm hok]
  have hr : respond req fr nowIso =
      .indeterminate (cleanVatId ((vatIdOf req).getD ""))
        "VIES API nicht erreichbar" true
        (countryCodeOf (cleanVatId ((vatIdOf req).getD ""))) nowIso
        "Format ist gültig, aber Online-Prüfung fehlgeschlagen" := by
    simp only [respond, if_neg hv, hlook, hmatch, if_pos]
    exact viesStage_of_fail hfail
  exact ⟨hr, by rw [show (respond req fr nowIso, _).1 = _ from rfl, hr]; rfl,
    by rw [show (respond req fr nowIso, _).1 = _ from rfl, hr]; rfl,
    by rw [show (respond req fr nowIso, _).1 = _ from rfl, hr]; rfl⟩

/-- Witness for C2: `DE123456789` with a thrown fetch yields the 200
Indeterminate body. -/
theorem vies_failure_indeterminate_200_witness :
    (handler ⟨"GET", none, none, none, some "DE123456789", none⟩ .exn 0 "iso"
        false []).1 =
      .indeterminate "DE123456789" "VIES API nicht erreichbar" true "DE"
        "iso" "Format ist gültig, aber Online-Prüfung fehlgeschlagen" := by
  have h := (vies_failure_indeterminate_200
    ⟨"GET", none, none, none, some "DE123456789", none⟩ .exn 0 "iso" false []
    (Or.inl rfl) (by decide) (by decide) patDE rfl (by decide) rfl).1
  exact h.trans (by decide)

/-- C8: a normalized identifier starting `GR` is always rejected by the
format stage: the table has a `GR` entry but its pattern demands the `EL`
prefix, so the handler answers with the 400 "bad format for GR" body —
never the unknown-country body, never a success — and the VIES stage is
unreachable. -/
theorem gr_prefix_always_rejected (req : Request) (fr : FetchResult)
    (nowMs : Nat) (nowIso : String) (sw : Bool) (st : RLMap)
    (hm : req.method = "GET" ∨ req.method = "POST")
    (hok : (rateLimitStep st (clientIPOf req) nowMs).1 = true)
    (hv : (vatIdOf req).getD "" ≠ "")
    (hgr : countryCodeOf (cleanVatId ((vatIdOf req).getD "")) = "GR") :
    (handler req fr nowMs nowIso sw st).1 =
      .badFormat (cleanVatId ((vatIdOf req).getD "")) false
        "Format entspricht nicht den Regeln für GR" false ∧
    (handler req fr nowMs nowIso sw st).1.status = 400 ∧
    (handler req fr nowMs nowIso sw st).1.formatValidField = some false := by
  rw [handler_admitted req fr nowMs nowIso sw st hm hok]
  have htake : (cleanVatId ((vatIdOf req).getD "")).data.take 2 = ['G', 'R'] :=
    congrArg String.data hgr
  obtain ⟨t, ht⟩ := take_two_shape htake
  have hlook : vatFormats
      (countryCodeOf (cleanVatId ((vatIdOf req).getD ""))) = some patGR := by
    rw [hgr]
    exact rfl
  have hpat : patGR (cleanVatId ((vatIdOf req).getD "")).data = false := by
    rw [ht]
    exact patGR_gr_prefixed t
  have hGR : vatFormats "GR" = some patGR := rfl
  have happ : ("Format entspricht nicht den Regeln für " ++ "GR" : String) =
      "Format entspricht nicht den Regeln für GR" := by decide
  have hr : respond req fr nowIso =
      .badFormat (cleanVatId ((vatIdOf req).getD "")) false
        "Format entspricht nicht den Regeln für GR" false := by
    simp [respond, if_neg hv, hgr, hGR, hpat, happ]
  exact ⟨hr, by rw [show (respond req fr nowIso, _).1 = _ from rfl, hr]; rfl,
    by rw [show (respond req fr nowIso, _).1 = _ from rfl, hr]; rfl⟩

/-- Witness for C8: `GR123456789` is rejected with the bad-format body
even though all nine digits are fine. -/
theorem gr_prefix_always_rejected_witness :
    (handler ⟨"GET", none, none, none, some "GR123456789", none⟩ .exn 0 ""
        false []).1 =
      .badFormat "GR123456789" false
        "Format entspricht nicht den Regeln für GR" false := by
  have h := (gr_prefix_always_rejected
    ⟨"GET", none, none, none, some "GR123456789", none⟩ .exn 0 "" false []
    (Or.inl rfl) (by decide) (by decide) (by decide)).1
  exact h.trans (by decide)

/-- C10: on every normalized input whose two-character prefix is neither
`EL` nor `XI`, the format-validation stages of the two handler versions
agree: same branch taken, same reported country code, hence the same
`formatValid` value. -/
theorem format_stage_versions_agree (s : String)
    (h1 : countryCodeOf s ≠ "EL") (h2 : countryCodeOf s ≠ "XI") :
    formatStage vatFormats s = formatStage vatFormatsOld s := by
  unfold formatStage
  rw [lookup_agree (countryCodeOf s) h1 h2]

/-- Witness for C10: the two stages agree on `DE123456789`. -/
theorem format_stage_versions_agree_witness :
    formatStage vatFormats "DE123456789" =
      formatStage vatFormatsOld "DE123456789" :=
  format_stage_versions_agree "DE123456789" (by decide) (by decide)

/-- C5: the probabilistic global sweep never deletes an identity that
still has at least one timestamp inside the 3600-second window — such an
identity survives carrying its re-filtered sequence — and an identity is
removed only when its re-filtered sequence is empty. -/
theorem sweep_preserves_active_identities (m : RLMap) (now : Nat)
    (ip : String) (ts : List Nat) :
    ((ip, ts) ∈ m → ∀ t ∈ ts, inWindow now t = true →
      (ip, ts.filter (fun u => inWindow now u)) ∈ sweep m now) ∧
    ((ip, ts) ∈ m → (∀ ts', (ip, ts') ∉ sweep m now) →
      ts.filter (fun u => inWindow now u) = []) := by
  have key : (ip, ts) ∈ m → ts.filter (fun u => inWindow now u) ≠ [] →
      (ip, ts.filter (fun u => inWindow now u)) ∈ sweep m now := by
    intro hmem hne
    apply List.mem_filterMap.mpr
    refine ⟨(ip, ts), hmem, ?_⟩
    simp only
    rw [if_neg (by simpa [List.length_eq_zero] using hne)]
  constructor
  · intro hmem t ht hw
    apply key hmem
    intro h0
    have hin : t ∈ ts.filter (fun u => inWindow now u) :=
      List.mem_filter.mpr ⟨ht, hw⟩
    rw [h0] at hin
    simp at hin
  · intro hmem hnone
    by_contra hne
    exact hnone _ (key hmem hne)

/-- Witness for C5: an identity with one in-window timestamp survives the
sweep. -/
theorem sweep_preserves_active_identities_witness :
    ("a", List.filter (fun u => inWindow 10 u) [5]) ∈ sweep [("a", [5])] 10 :=
  (sweep_preserves_active_identities [("a", [5])] 10 "a" [5]).1
    (by decide) 5 (by decide) (by decide)

/-- C9: the rate-limit timestamp is appended before input extraction:
after any admitted GET/POST request the identity's stored record is its
lazily-filtered previous record plus the request's own timestamp — one
entry longer — independent of the response that follows, so requests that
end in a 400 (missing identifier, unknown country, bad format) still
consume quota. -/
theorem admitted_request_appends (req : Request) (fr : FetchResult)
    (nowMs : Nat) (nowIso : String) (sw : Bool) (st : RLMap)
    (hm : req.method = "GET" ∨ req.method = "POST")
    (hok : (rateLimitStep st (clientIPOf req) nowMs).1 = true) :
    mapGet (handler req fr nowMs nowIso sw st).2 (clientIPOf req) =
      some (((mapGet st (clientIPOf req)).getD []).filter
        (fun t => inWindow nowMs t) ++ [nowMs]) := by
  rw [handler_admitted req fr nowMs nowIso sw st hm hok]
  simp only
  have hstep : (rateLimitStep st (clientIPOf req) nowMs).2 =
      mapSet st (clientIPOf req)
        (((mapGet st (clientIPOf req)).getD []).filter
          (fun t => inWindow nowMs t) ++ [nowMs]) := by
    cases hget : mapGet st (clientIPOf req) with
    | none =>
        rw [rateLimitStep, hget]
        simp [hget]
    | some times =>
        rw [rateLimitStep, hget] at hok ⊢
        simp only at hok ⊢
        by_cases hbig :
            150 ≤ (times.filter (fun t => inWindow nowMs t)).length
        · rw [if_pos hbig] at hok
          simp at hok
        · rw [if_neg hbig]
          simp [hget]
  cases sw with
  | false =>
      rw [if_neg (by simp), hstep]
      exact mapGet_mapSet_self st (clientIPOf req) _
  | true =>
      rw [if_pos rfl, hstep]
      have hself := mapGet_mapSet_self st (clientIPOf req)
        (((mapGet st (clientIPOf req)).getD []).filter
          (fun t => inWindow nowMs t) ++ [nowMs])
      have hfix := @filter_inWindow_fix
        (((mapGet st (clientIPOf req)).getD []).filter
          (fun t => inWindow nowMs t)) nowMs
        (fun a ha => List.of_mem_filter ha)
      rw [mapGet_sweep hself (by rw [hfix]; simp), hfix]

/-- Witness for C9: an admitted GET request with no `vatId` (so a 400
response) still appends its timestamp, here through a triggered sweep. -/
theorem admitted_request_appends_witness :
    mapGet (handler ⟨"GET", none, none, none, none, none⟩ .exn 7 "" true []).2
        (clientIPOf ⟨"GET", none, none, none, none, none⟩) =
      some (((mapGet [] (clientIPOf
          ⟨"GET", none, none, none, none, none⟩)).getD []).filter
        (fun t => inWindow 7 t) ++ [7]) :=
  admitted_request_appends ⟨"GET", none, none, none, none, none⟩ .exn 7 "" true
    [] (Or.inl rfl) (by decide)

/-- C1: from a fresh store, a single identity is admitted on each of 150
requests inside one 3600-second window; the 151st request of the same
window is answered with the 429 body carrying `retryAfter = 3600`, and it
leaves the stored record untouched (its timestamp is not appended). -/
theorem rate_limiter_150_then_429 (ip : String) (base : Nat)
    (ts : List Nat) (hlen : ts.length = 150)
    (hwin : ∀ t ∈ ts, base ≤ t ∧ t < base + 3600000)
    (t151 : Nat) (h151 : base ≤ t151 ∧ t151 < base + 3600000) :
    (runLimiter ip ts []).1 = List.replicate 150 true ∧
    ∀ req fr nowIso sw, req.method = "GET" ∨ req.method = "POST" →
      clientIPOf req = ip →
      handler req fr t151 nowIso sw (runLimiter ip ts []).2 =
        (.tooMany "Zu viele Anfragen. Bitte versuchen Sie es später erneut."
          false 3600, (runLimiter ip ts []).2) ∧
      (handler req fr t151 nowIso sw (runLimiter ip ts []).2).1.status =
        429 ∧
      (handler req fr t151 nowIso sw
        (runLimiter ip ts []).2).1.retryAfterField = some 3600 := by
  obtain ⟨t1, rest, rfl⟩ : ∃ t1 rest, ts = t1 :: rest := by
    cases ts with
    | nil => simp at hlen
    | cons a l => exact ⟨a, l, rfl⟩
  have hstep1 : rateLimitStep [] ip t1 = (true, [(ip, [t1])]) := by
    rw [rateLimitStep]
    simp [mapGet, mapSet]
  have hrun : runLimiter ip (t1 :: rest) [] =
      (true :: List.replicate rest.length true, [(ip, [t1] ++ rest)]) := by
    rw [runLimiter, hstep1]
    simp only
    rw [runLimiter_fill ip base rest [t1]
      (by
        intro a ha
        rw [List.mem_singleton.mp ha]
        exact hwin t1 (List.mem_cons_self t1 rest))
      (fun a ha => hwin a (List.mem_cons_of_mem t1 ha))
      (by simp at hlen ⊢; omega)]
  have hlen' : rest.length = 149 := by simp at hlen; omega
  constructor
  · rw [hrun]
    simp only
    rw [hlen']
    rfl
  · intro req fr nowIso sw hm hip
    have hfull : ([t1] ++ rest).filter (fun u => inWindow t151 u) =
        [t1] ++ rest := by
      rw [List.filter_eq_self]
      intro a ha
      have hb : base ≤ a ∧ a < base + 3600000 := by
        rcases List.mem_append.mp ha with h | h
        · rw [List.mem_singleton.mp h]
          exact hwin t1 (List.mem_cons_self t1 rest)
        · exact hwin a (List.mem_cons_of_mem t1 h)
      simp only [inWindow, decide_eq_true_eq]
      omega
    have hreject : (rateLimitStep [(ip, [t1] ++ rest)] ip t151).1 = false := by
      rw [rateLimitStep]
      rw [show mapGet [(ip, [t1] ++ rest)] ip = some ([t1] ++ rest) by
        simp [mapGet]]
      simp only [hfull]
      rw [if_pos (by simp [hlen'])]
    have hh := handler_rejected req fr t151 nowIso sw [(ip, [t1] ++ rest)] hm
      (by rw [hip]; exact hreject)
    rw [hrun]
    simp only
    refine ⟨hh, ?_, ?_⟩ <;> rw [hh] <;> rfl

/-- Witness for C1: after 150 requests at time 0 from one identity, a
151st request at time 0 receives the 429 body and the store is returned
unchanged. -/
theorem rate_limiter_150_then_429_witness :
    handler ⟨"GET", none, some "ip1", none, some "x", none⟩ .exn 0 "" false
        (runLimiter "ip1" (List.replicate 150 0) []).2 =
      (.tooMany "Zu viele Anfragen. Bitte versuchen Sie es später erneut."
        false 3600, (runLimiter "ip1" (List.replicate 150 0) []).2) :=
  ((rate_limiter_150_then_429 "ip1" 0 (List.replicate 150 0) (by simp)
      (by
        intro t ht
        rw [List.eq_of_mem_replicate ht]
        omega)
      0 ⟨Nat.le_refl 0, by omega⟩).2
    ⟨"GET", none, some "ip1", none, some "x", none⟩ .exn "" false
    (Or.inl rfl) (by decide)).1

end UstId
